import Mathlib

/-!
Verification of `relayer/src/chain/cosmos/wait.rs` (transaction-confirmation
tracking for a Cosmos chain client).

The module under scrutiny has three items:
  * `wait_for_block_commits` — the polling loop (await_confirmations in the spec),
  * `update_tx_sync_result`  — refresh of one tracking record,
  * `all_tx_results_found`   — the all-resolved check.

Shallow embedding notes.
  * External collaborators that live outside the excerpt are parameters:
    `hn` models `ibc::Height::new` (may fail), `dec` models
    `from_tx_response_event` (zero-or-more canonical events per raw event),
    and each polling round's chain query is a function from a transaction
    hash to a query outcome.
  * The Rust functions mutate a caller-owned slice; here state is passed
    explicitly: each operation returns the updated record list.
  * `.unwrap()` on a failed height construction panics in Rust, aborting the
    whole call by unwind.  Panics are modelled as the error channel of an
    outer `Except`: `update_tx_sync_result` returns
    `Except (String × TxSyncResult) …` where the error payload carries the
    panic message and the record as left at the moment of the panic
    (its status was already overwritten before the unwrap).
  * Wall-clock time is explicit: the loop carries `elapsed` (milliseconds),
    each round pays the fixed 300 ms backoff plus an environment-chosen
    query-round duration, and the loop result carries the final elapsed time.
-/

namespace CosmosWait

/-- Fully qualified block position: `ibc::Height`, a revision (chain version)
number paired with a block index. -/
structure Height where
  revision_number : Nat
  revision_height : Nat
deriving Repr, DecidableEq

/-- Chain identifier; only its version component is consumed by this module
(`chain_id.version()`). -/
structure ChainId where
  name : String
  version : Nat
deriving Repr, DecidableEq

/-- Raw chain-native event as carried in a tx query response
(`tendermint::abci::Event`); opaque to this module, consumed only by the
decoding collaborator. -/
structure AbciEvent where
  ty : String
  attributes : List (String × String)
deriving Repr, DecidableEq

/-- Canonical decoded event.  Only `ChainError` is constructed by this module;
`Decoded` stands in for every other canonical event the external decoder may
produce. -/
inductive IbcEvent where
  | ChainError (msg : String)
  | Decoded (name : String) (height : Height)
deriving Repr, DecidableEq

/-- Transient transport error returned by the chain query collaborator. -/
structure Error where
  msg : String
deriving Repr, DecidableEq

/-- Execution result carried in a tx query response
(`response.tx_result`): outcome code (0 = success), log text, raw events. -/
structure TxResult where
  code : Nat
  log : String
  events : List AbciEvent
deriving Repr, DecidableEq

/-- Chain query response for one transaction hash (`tx::Response`): hash,
inclusion height and execution result. -/
structure TxResponse where
  hash : String
  height : Nat
  tx_result : TxResult
deriving Repr, DecidableEq

/-- Broadcast-time response stored in a tracking record
(`tx_sync::Response`); only its hash is consumed by this module. -/
structure TxSyncResponse where
  hash : String
deriving Repr, DecidableEq

/-- Status of one tracking record.  Modelled from the spec: the
`TxStatus` type lives in `chain/cosmos/types/tx.rs`, outside the excerpt; the
spec's TrackingRecord status is `Pending { message_count }` or `Resolved`
(named `ReceivedResponse` in the code), and `wait.rs` matches on exactly
these two variants. -/
inductive TxStatus where
  | Pending (message_count : Nat)
  | ReceivedResponse
deriving Repr, DecidableEq

/-- One tracking record.  Modelled from the spec: `TxSyncResult` lives in
`chain/cosmos/types/tx.rs`, outside the excerpt; the spec's TrackingRecord
holds the broadcast response hash (immutable), the status and the decoded
events, and `wait.rs` reads/writes exactly the fields below. -/
structure TxSyncResult where
  response : TxSyncResponse
  events : List IbcEvent
  status : TxStatus
deriving Repr, DecidableEq

/-- `tendermint::abci::Code::is_err` — the outcome code is an error iff it is
non-zero. -/
def code_is_err (code : Nat) : Bool :=
  code != 0

/-- Diagnostic string of a synthetic chain-error event, from
`format!("deliver_tx for {} reports error: code={:?}, log={:?}", …)`. -/
def chainErrorMessage (hash : String) (code : Nat) (log : String) : String :=
  "deliver_tx for " ++ hash ++ " reports error: code=" ++ toString code ++
    ", log=" ++ log

/-- Message of the Rust panic raised by `Option::unwrap` on `None`, the
abort taken when the fully qualified height cannot be constructed. -/
def unwrapPanicMsg : String :=
  "called Option::unwrap() on a None value"

/-- One refresh of a single tracking record (`update_tx_sync_result`).

`hn` embeds `ibc::Height::new` (an external constructor that can fail),
`dec` embeds `from_tx_response_event` (the decoding collaborator), and
`queryResult` is the outcome `query_tx_response` produced for this record's
hash: a transient `Error`, "not yet found" (`none`), or a response.

Returns `.ok (record', ret)` where `record'` is the record after the call and
`ret` is the Rust function's `Result<(), Error>` return value, or
`.error (panicMsg, record')` when the height unwrap panics. -/
def update_tx_sync_result (hn : Nat → Nat → Option Height)
    (dec : Height → AbciEvent → List IbcEvent) (chain_id : ChainId)
    (queryResult : Except Error (Option TxResponse)) (r : TxSyncResult) :
    Except (String × TxSyncResult) (TxSyncResult × Except Error Unit) :=
  match r.status with
  | .Pending message_count =>
    match queryResult with
    | .error e => .ok (r, .error e)
    | .ok none => .ok (r, .ok ())
    | .ok (some response) =>
      if code_is_err response.tx_result.code then
        .ok ({ r with
                status := .ReceivedResponse,
                events := List.replicate message_count
                  (.ChainError (chainErrorMessage response.hash
                    response.tx_result.code response.tx_result.log)) },
             .ok ())
      else
        match hn chain_id.version response.height with
        | none => .error (unwrapPanicMsg, { r with status := .ReceivedResponse })
        | some height =>
          .ok ({ r with
                  status := .ReceivedResponse,
                  events := (response.tx_result.events.map (dec height)).flatten },
               .ok ())
  | .ReceivedResponse => .ok (r, .ok ())

/-- One refresh pass of the loop body: refresh every record in order, each
with the query outcome the current round's chain query gives for its hash;
the per-record `Result` is discarded (`let _ = update_tx_sync_result(…)`).
A panic aborts the pass; the error payload carries the record list as left
at that moment (earlier records updated, the panicking one half-updated,
later ones untouched). -/
def refresh_all (hn : Nat → Nat → Option Height)
    (dec : Height → AbciEvent → List IbcEvent) (chain_id : ChainId)
    (q : String → Except Error (Option TxResponse)) :
    List TxSyncResult → Except (String × List TxSyncResult) (List TxSyncResult)
  | [] => .ok []
  | r :: rs =>
    match update_tx_sync_result hn dec chain_id (q r.response.hash) r with
    | .error (msg, rPanic) => .error (msg, rPanic :: rs)
    | .ok (r', _) =>
      match refresh_all hn dec chain_id q rs with
      | .error (msg, rest) => .error (msg, r' :: rest)
      | .ok rs' => .ok (r' :: rs')

/-- `all_tx_results_found`: every record's status is `ReceivedResponse`. -/
def all_tx_results_found (tx_sync_results : List TxSyncResult) : Bool :=
  tx_sync_results.all fun r =>
    match r.status with
    | .ReceivedResponse => true
    | _ => false

/-- Fixed backoff between polling attempts, `WAIT_BACKOFF`
(300 milliseconds). -/
def WAIT_BACKOFF : Nat := 300

/-- Environment of one polling round: how long the refresh pass's queries
take beyond the backoff sleep, and the chain query outcome per transaction
hash for that round. -/
structure Round where
  queryTime : Nat
  query : String → Except Error (Option TxResponse)

/-- Outcome of the polling loop: success, the timeout error
(`Error::tx_no_confirmation()`), or a panic unwind (never a normal return in
Rust). -/
inductive WaitOutcome where
  | ok
  | timeoutErr
  | panicked (msg : String)
deriving Repr, DecidableEq

/-- The polling loop of `wait_for_block_commits`.  `elapsed` is the wall
clock at the top of the current iteration, `k` the round index into the
environment `env`.  Each non-exit iteration sleeps `WAIT_BACKOFF` and pays
the round's query time.  Returns the outcome, the record list as left when
the loop stops, and the wall clock at that point. -/
def wait_go (hn : Nat → Nat → Option Height)
    (dec : Height → AbciEvent → List IbcEvent) (chain_id : ChainId)
    (timeout : Nat) (env : Nat → Round) (k : Nat) (elapsed : Nat)
    (records : List TxSyncResult) :
    WaitOutcome × List TxSyncResult × Nat :=
  if all_tx_results_found records then
    (.ok, records, elapsed)
  else if _h : timeout < elapsed then
    (.timeoutErr, records, elapsed)
  else
    match refresh_all hn dec chain_id (env k).query records with
    | .error (msg, recsAtPanic) =>
      (.panicked msg, recsAtPanic, elapsed + WAIT_BACKOFF + (env k).queryTime)
    | .ok records' =>
      wait_go hn dec chain_id timeout env (k + 1)
        (elapsed + WAIT_BACKOFF + (env k).queryTime) records'
termination_by timeout + WAIT_BACKOFF - elapsed
decreasing_by
  simp_wf
  simp only [WAIT_BACKOFF] at *
  omega

/-- `wait_for_block_commits`: record the start time (the loop begins with
`elapsed0` already on the clock, the time spent between `Instant::now()` and
the first check) and run the polling loop from round 0. -/
def wait_for_block_commits (hn : Nat → Nat → Option Height)
    (dec : Height → AbciEvent → List IbcEvent) (chain_id : ChainId)
    (timeout : Nat) (env : Nat → Round) (records : List TxSyncResult)
    (elapsed0 : Nat) : WaitOutcome × List TxSyncResult × Nat :=
  wait_go hn dec chain_id timeout env 0 elapsed0 records

/-! Concrete sample instances, used to evaluate the theorems below on
closed inputs. -/

/-- Height constructor that never fails. -/
def hnTotal : Nat → Nat → Option Height := fun v h => some ⟨v, h⟩

/-- Height constructor that always fails (models the unrepresentable case). -/
def hnNone : Nat → Nat → Option Height := fun _ _ => none

/-- Sample decoder: one canonical event per raw event. -/
def decOne : Height → AbciEvent → List IbcEvent := fun h e => [.Decoded e.ty h]

/-- Sample chain identifier with version 4. -/
def cidA : ChainId := ⟨"chainA", 4⟩

/-- Sample query response whose execution outcome is an on-chain error. -/
def respErr : TxResponse := ⟨"HASH1", 100, ⟨5, "out of gas", []⟩⟩

/-- Sample query response whose execution outcome is success, two raw
events. -/
def respOk2 : TxResponse := ⟨"HASH1", 100, ⟨0, "", [⟨"send", []⟩, ⟨"recv", []⟩]⟩⟩

/-- Sample pending record with two bundled messages. -/
def recPending2 : TxSyncResult := ⟨⟨"HASH1"⟩, [], .Pending 2⟩

/-- Sample already-resolved record. -/
def recResolved : TxSyncResult := ⟨⟨"HASH2"⟩, [.ChainError "x"], .ReceivedResponse⟩

/-! Equation lemmas for `update_tx_sync_result`, one per branch of the
source function. -/

/-- A refresh of an already-resolved record is the identity, whatever the
query outcome. -/
theorem update_eq_resolved (hn : Nat → Nat → Option Height)
    (dec : Height → AbciEvent → List IbcEvent) (chain_id : ChainId)
    (q : Except Error (Option TxResponse)) (r : TxSyncResult)
    (hst : r.status = .ReceivedResponse) :
    update_tx_sync_result hn dec chain_id q r = .ok (r, .ok ()) := by
  simp [update_tx_sync_result, hst]

/-- A transient query error leaves a pending record unchanged and is
returned in the function's result channel. -/
theorem update_eq_transient (hn : Nat → Nat → Option Height)
    (dec : Height → AbciEvent → List IbcEvent) (chain_id : ChainId)
    (e : Error) (r : TxSyncResult) (k : Nat)
    (hst : r.status = .Pending k) :
    update_tx_sync_result hn dec chain_id (.error e) r = .ok (r, .error e) := by
  simp [update_tx_sync_result, hst]

/-- A "not yet found" query outcome leaves a pending record unchanged. -/
theorem update_eq_notfound (hn : Nat → Nat → Option Height)
    (dec : Height → AbciEvent → List IbcEvent) (chain_id : ChainId)
    (r : TxSyncResult) (k : Nat)
    (hst : r.status = .Pending k) :
    update_tx_sync_result hn dec chain_id (.ok none) r = .ok (r, .ok ()) := by
  simp [update_tx_sync_result, hst]

/-- A response with an error outcome resolves a pending record with the
replicated chain-error events. -/
theorem update_eq_errcode (hn : Nat → Nat → Option Height)
    (dec : Height → AbciEvent → List IbcEvent) (chain_id : ChainId)
    (resp : TxResponse) (r : TxSyncResult) (k : Nat)
    (hst : r.status = .Pending k)
    (hcode : code_is_err resp.tx_result.code = true) :
    update_tx_sync_result hn dec chain_id (.ok (some resp)) r
      = .ok ({ r with
                status := .ReceivedResponse,
                events := List.replicate k (.ChainError (chainErrorMessage
                  resp.hash resp.tx_result.code resp.tx_result.log)) },
             .ok ()) := by
  simp [update_tx_sync_result, hst, hcode]

/-- A response with a success outcome and a representable height resolves a
pending record with the flattened decoded events. -/
theorem update_eq_success (hn : Nat → Nat → Option Height)
    (dec : Height → AbciEvent → List IbcEvent) (chain_id : ChainId)
    (resp : TxResponse) (r : TxSyncResult) (k : Nat) (ht : Height)
    (hst : r.status = .Pending k)
    (hcode : code_is_err resp.tx_result.code = false)
    (hh : hn chain_id.version resp.height = some ht) :
    update_tx_sync_result hn dec chain_id (.ok (some resp)) r
      = .ok ({ r with
                status := .ReceivedResponse,
                events := (resp.tx_result.events.map (dec ht)).flatten },
             .ok ()) := by
  simp [update_tx_sync_result, hst, hcode, hh]

/-- A response with a success outcome and an unrepresentable height panics;
the record's status had already been overwritten when the panic fired. -/
theorem update_eq_panic (hn : Nat → Nat → Option Height)
    (dec : Height → AbciEvent → List IbcEvent) (chain_id : ChainId)
    (resp : TxResponse) (r : TxSyncResult) (k : Nat)
    (hst : r.status = .Pending k)
    (hcode : code_is_err resp.tx_result.code = false)
    (hh : hn chain_id.version resp.height = none) :
    update_tx_sync_result hn dec chain_id (.ok (some resp)) r
      = .error (unwrapPanicMsg, { r with status := .ReceivedResponse }) := by
  simp [update_tx_sync_result, hst, hcode, hh]

/-- Whatever a refresh does to a record, the broadcast response (and so the
transaction hash) is preserved, in the normal as well as in the panic
channel. -/
theorem update_preserves_response (hn : Nat → Nat → Option Height)
    (dec : Height → AbciEvent → List IbcEvent) (chain_id : ChainId)
    (q : Except Error (Option TxResponse)) (r : TxSyncResult) :
    (∀ r' ret, update_tx_sync_result hn dec chain_id q r = .ok (r', ret) →
        r'.response = r.response) ∧
    (∀ msg r', update_tx_sync_result hn dec chain_id q r = .error (msg, r') →
        r'.response = r.response) := by
  unfold update_tx_sync_result
  rcases hst : r.status with k | _ <;>
    rcases q with e | resp <;>
    constructor <;>
    intro a b hupd <;>
    simp at hupd <;>
    try simp [← hupd.1]
  all_goals rcases resp with _ | resp
  all_goals simp at hupd ⊢
  all_goals try simp [← hupd.1]
  all_goals rcases hc : code_is_err resp.tx_result.code with _ | _ <;>
    simp [hc] at hupd
  all_goals try rcases hh : hn chain_id.version resp.height with _ | ht <;>
    simp [hh] at hupd
  all_goals try simp [← hupd.1]
  all_goals try simp [← hupd.2]

/-- Claim C1: refreshing a Pending record whose chain query returns a
response with an on-chain error outcome resolves it and sets its events to
exactly `message_count` synthetic chain-error events, each carrying the
diagnostic string built from the transaction hash, the error code and the
log text. -/
theorem c1_error_outcome_events (hn : Nat → Nat → Option Height)
    (dec : Height → AbciEvent → List IbcEvent) (chain_id : ChainId)
    (resp : TxResponse) (r : TxSyncResult) (k : Nat)
    (hst : r.status = .Pending k)
    (hcode : code_is_err resp.tx_result.code = true) :
    ∃ r', update_tx_sync_result hn dec chain_id (.ok (some resp)) r
        = .ok (r', .ok ()) ∧
      r'.status = .ReceivedResponse ∧
      r'.events.length = k ∧
      ∀ e ∈ r'.events,
        e = .ChainError (chainErrorMessage resp.hash resp.tx_result.code
              resp.tx_result.log) := by
  refine ⟨{ r with
             status := .ReceivedResponse,
             events := List.replicate k (.ChainError (chainErrorMessage
               resp.hash resp.tx_result.code resp.tx_result.log)) },
          ?_, rfl, by simp, ?_⟩
  · simp [update_tx_sync_result, hst, hcode]
  · intro e he
    exact List.eq_of_mem_replicate he

/-- Claim C1 witness: concrete failed transaction with `message_count = 2`,
error code 5. -/
theorem c1_error_outcome_events_witness :
    ∃ r', update_tx_sync_result hnTotal decOne cidA (.ok (some respErr))
        recPending2 = .ok (r', .ok ()) ∧
      r'.status = .ReceivedResponse ∧
      r'.events.length = 2 ∧
      ∀ e ∈ r'.events,
        e = .ChainError (chainErrorMessage respErr.hash
              respErr.tx_result.code respErr.tx_result.log) :=
  c1_error_outcome_events hnTotal decOne cidA respErr recPending2 2
    rfl (by decide)

/-- Claim C3: refreshing a Pending record whose chain query returns a
successful response resolves it and sets its events to the order-preserving
concatenation of the decoder's output on each raw event, the decoder being
fed the height built from the chain version and the response's inclusion
height. -/
theorem c3_success_outcome_events (hn : Nat → Nat → Option Height)
    (dec : Height → AbciEvent → List IbcEvent) (chain_id : ChainId)
    (resp : TxResponse) (r : TxSyncResult) (k : Nat) (ht : Height)
    (hst : r.status = .Pending k)
    (hcode : code_is_err resp.tx_result.code = false)
    (hh : hn chain_id.version resp.height = some ht) :
    ∃ r', update_tx_sync_result hn dec chain_id (.ok (some resp)) r
        = .ok (r', .ok ()) ∧
      r'.status = .ReceivedResponse ∧
      r'.events = (resp.tx_result.events.map (dec ht)).flatten ∧
      r'.events = resp.tx_result.events.flatMap (dec ht) := by
  refine ⟨{ r with
             status := .ReceivedResponse,
             events := (resp.tx_result.events.map (dec ht)).flatten },
          ?_, rfl, rfl, ?_⟩
  · simp [update_tx_sync_result, hst, hcode, hh]
  · simp [List.flatMap_def]

/-- Claim C3 witness: successful transaction at height 100 on version 4,
two raw events each decoding to one canonical event. -/
theorem c3_success_outcome_events_witness :
    ∃ r', update_tx_sync_result hnTotal decOne cidA (.ok (some respOk2))
        recPending2 = .ok (r', .ok ()) ∧
      r'.status = .ReceivedResponse ∧
      r'.events = (respOk2.tx_result.events.map (decOne ⟨4, 100⟩)).flatten ∧
      r'.events = respOk2.tx_result.events.flatMap (decOne ⟨4, 100⟩) :=
  c3_success_outcome_events hnTotal decOne cidA respOk2 recPending2 2
    ⟨4, 100⟩ rfl (by decide) rfl

/-- Claim C7: the only status transition a refresh performs is
Pending → ReceivedResponse; a refresh of a resolved record returns it
unchanged whatever the query outcome (so the transition is taken at most
once and ReceivedResponse is terminal); and a "not yet found" query outcome
leaves a Pending record unchanged. -/
theorem c7_status_transitions (hn : Nat → Nat → Option Height)
    (dec : Height → AbciEvent → List IbcEvent) (chain_id : ChainId)
    (q : Except Error (Option TxResponse)) (r : TxSyncResult) :
    (∀ r' ret, update_tx_sync_result hn dec chain_id q r = .ok (r', ret) →
        r'.status = r.status ∨
        (∃ k, r.status = .Pending k ∧ r'.status = .ReceivedResponse)) ∧
    (r.status = .ReceivedResponse →
        update_tx_sync_result hn dec chain_id q r = .ok (r, .ok ())) ∧
    (∀ k, r.status = .Pending k → q = .ok none →
        update_tx_sync_result hn dec chain_id q r = .ok (r, .ok ())) := by
  refine ⟨?_, ?_, ?_⟩
  · intro r' ret hupd
    rcases hr : r.status with k | _
    · rcases q with e | resp
      · rw [update_eq_transient hn dec chain_id e r k hr] at hupd
        simp at hupd
        left
        rw [← hupd.1]
        exact hr
      · rcases resp with _ | resp
        · rw [update_eq_notfound hn dec chain_id r k hr] at hupd
          simp at hupd
          left
          rw [← hupd.1]
          exact hr
        · right
          refine ⟨k, rfl, ?_⟩
          rcases hc : code_is_err resp.tx_result.code with _ | _
          · rcases hh : hn chain_id.version resp.height with _ | ht
            · rw [update_eq_panic hn dec chain_id resp r k hr hc hh] at hupd
              simp at hupd
            · rw [update_eq_success hn dec chain_id resp r k ht hr hc hh]
                at hupd
              simp at hupd
              rw [← hupd.1]
          · rw [update_eq_errcode hn dec chain_id resp r k hr hc] at hupd
            simp at hupd
            rw [← hupd.1]
    · rw [update_eq_resolved hn dec chain_id q r hr] at hupd
      simp at hupd
      left
      rw [← hupd.1, hr]
  · intro hr
    exact update_eq_resolved hn dec chain_id q r hr
  · intro k hr hq
    rw [hq]
    exact update_eq_notfound hn dec chain_id r k hr

/-- A record status that is not `ReceivedResponse` is `Pending`. -/
theorem status_not_received (s : TxStatus) :
    s ≠ .ReceivedResponse ↔ ∃ k, s = .Pending k := by
  cases s <;> simp

/-- A record collection fails the all-found check exactly when some record
is still pending. -/
theorem not_all_found_iff (rs : List TxSyncResult) :
    all_tx_results_found rs = false ↔ ∃ r ∈ rs, ∃ k, r.status = .Pending k := by
  rw [all_tx_results_found]
  rw [← Bool.not_eq_true, List.all_eq_true]
  constructor
  · intro h
    push_neg at h
    obtain ⟨r, hr, hs⟩ := h
    refine ⟨r, hr, ?_⟩
    rw [← status_not_received]
    intro hst
    rw [hst] at hs
    simp at hs
  · intro ⟨r, hr, k, hs⟩ h
    have := h r hr
    rw [hs] at this
    simp at this

/-- The refresh pass keeps the list length, the order and every record's
broadcast response, in the normal and in the panic channel. -/
theorem refresh_all_preserves_response (hn : Nat → Nat → Option Height)
    (dec : Height → AbciEvent → List IbcEvent) (chain_id : ChainId)
    (q : String → Except Error (Option TxResponse)) :
    ∀ rs : List TxSyncResult,
      (∀ rs', refresh_all hn dec chain_id q rs = .ok rs' →
          rs'.map TxSyncResult.response = rs.map TxSyncResult.response) ∧
      (∀ msg rs', refresh_all hn dec chain_id q rs = .error (msg, rs') →
          rs'.map TxSyncResult.response = rs.map TxSyncResult.response) := by
  intro rs
  induction rs with
  | nil =>
    constructor
    · intro rs' h
      simp [refresh_all] at h
      simp [← h]
    · intro msg rs' h
      simp [refresh_all] at h
  | cons r0 rs ih =>
    constructor
    · intro rs' h
      simp only [refresh_all] at h
      rcases hu : update_tx_sync_result hn dec chain_id (q r0.response.hash) r0
        with ⟨msg0, rp⟩ | ⟨r0', ret⟩
      · rw [hu] at h
        simp at h
      · rw [hu] at h
        rcases hrec : refresh_all hn dec chain_id q rs with ⟨msg1, rest⟩ | rs0'
        · rw [hrec] at h
          simp at h
        · rw [hrec] at h
          simp at h
          rw [← h]
          simp only [List.map_cons]
          rw [(update_preserves_response hn dec chain_id
                (q r0.response.hash) r0).1 r0' ret hu,
              ih.1 rs0' hrec]
    · intro msg rs' h
      simp only [refresh_all] at h
      rcases hu : update_tx_sync_result hn dec chain_id (q r0.response.hash) r0
        with ⟨msg0, rp⟩ | ⟨r0', ret⟩
      · rw [hu] at h
        simp at h
        rw [← h.2]
        simp only [List.map_cons]
        rw [(update_preserves_response hn dec chain_id
              (q r0.response.hash) r0).2 msg0 rp hu]
      · rw [hu] at h
        rcases hrec : refresh_all hn dec chain_id q rs with ⟨msg1, rest⟩ | rs0'
        · rw [hrec] at h
          simp at h
          rw [← h.2]
          simp only [List.map_cons]
          rw [(update_preserves_response hn dec chain_id
                (q r0.response.hash) r0).1 r0' ret hu,
              ih.2 msg1 rest hrec]
        · rw [hrec] at h
          simp at h

/-- A successful refresh pass returns every already-resolved record
unchanged at its original position. -/
theorem refresh_all_preserves_resolved (hn : Nat → Nat → Option Height)
    (dec : Height → AbciEvent → List IbcEvent) (chain_id : ChainId)
    (q : String → Except Error (Option TxResponse)) :
    ∀ rs rs', refresh_all hn dec chain_id q rs = .ok rs' →
      ∀ (i : Nat) (r : TxSyncResult),
        rs[i]? = some r → r.status = .ReceivedResponse →
        rs'[i]? = some r := by
  intro rs
  induction rs with
  | nil =>
    intro rs' h i r hi
    simp at hi
  | cons r0 rs ih =>
    intro rs' h i r hi hres
    simp only [refresh_all] at h
    rcases hu : update_tx_sync_result hn dec chain_id (q r0.response.hash) r0
      with ⟨msg0, rp⟩ | ⟨r0', ret⟩
    · rw [hu] at h
      simp at h
    · rw [hu] at h
      rcases hrec : refresh_all hn dec chain_id q rs with ⟨msg1, rest⟩ | rs0'
      · rw [hrec] at h
        simp at h
      · rw [hrec] at h
        simp at h
        cases i with
        | zero =>
          simp at hi
          rw [← h]
          simp only [List.getElem?_cons_zero, Option.some.injEq]
          rw [← hi] at hres
          rw [update_eq_resolved hn dec chain_id (q r0.response.hash) r0 hres]
            at hu
          simp at hu
          rw [← hu.1]
          exact hi
        | succ j =>
          simp only [List.getElem?_cons_succ] at hi
          rw [← h]
          simp only [List.getElem?_cons_succ]
          exact ih rs0' hrec j r hi hres

/-- Claim C7 witness: a refresh of a concrete resolved record, with a
concrete query outcome available, returns it unchanged. -/
theorem c7_status_transitions_witness :
    update_tx_sync_result hnTotal decOne cidA (.ok (some respOk2))
      recResolved = .ok (recResolved, .ok ()) :=
  (c7_status_transitions hnTotal decOne cidA (.ok (some respOk2))
    recResolved).2.1 rfl

/-- Claim C6: in a refresh pass, a transient query failure for one record is
swallowed — the record stays Pending, the error appears only in the
per-record result that the pass discards — and the remaining records are
still refreshed, so a record whose query returns a response in the same
pass is resolved. -/
theorem c6_transient_error_swallowed (hn : Nat → Nat → Option Height)
    (dec : Height → AbciEvent → List IbcEvent) (chain_id : ChainId)
    (q : String → Except Error (Option TxResponse))
    (a b : TxSyncResult) (rest rest' : List TxSyncResult) (e : Error)
    (ka kb : Nat) (resp : TxResponse)
    (ha : a.status = .Pending ka)
    (hqa : q a.response.hash = .error e)
    (hb : b.status = .Pending kb)
    (hqb : q b.response.hash = .ok (some resp))
    (hcode : code_is_err resp.tx_result.code = true)
    (hrest : refresh_all hn dec chain_id q rest = .ok rest') :
    update_tx_sync_result hn dec chain_id (q a.response.hash) a
      = .ok (a, .error e) ∧
    ∃ b', refresh_all hn dec chain_id q (a :: b :: rest)
        = .ok (a :: b' :: rest') ∧
      b'.status = .ReceivedResponse ∧ b'.response = b.response := by
  have hua : update_tx_sync_result hn dec chain_id (q a.response.hash) a
      = .ok (a, .error e) := by
    rw [hqa]
    exact update_eq_transient hn dec chain_id e a ka ha
  have hub : update_tx_sync_result hn dec chain_id (q b.response.hash) b
      = .ok ({ b with
                status := .ReceivedResponse,
                events := List.replicate kb (.ChainError (chainErrorMessage
                  resp.hash resp.tx_result.code resp.tx_result.log)) },
             .ok ()) := by
    rw [hqb]
    exact update_eq_errcode hn dec chain_id resp b kb hb hcode
  refine ⟨hua, { b with
                  status := .ReceivedResponse,
                  events := List.replicate kb (.ChainError (chainErrorMessage
                    resp.hash resp.tx_result.code resp.tx_result.log)) },
          ?_, rfl, rfl⟩
  simp only [refresh_all, hua, hub, hrest]

/-- Transient transport error used in concrete runs. -/
def errConn : Error := ⟨"connection refused"⟩

/-- Failed-outcome query response for the second sample transaction. -/
def respErrB : TxResponse := ⟨"HASHB", 101, ⟨7, "failed", []⟩⟩

/-- Second sample pending record, one bundled message. -/
def recPendingB : TxSyncResult := ⟨⟨"HASHB"⟩, [], .Pending 1⟩

/-- Sample per-round chain query: answers for the second sample record,
transiently fails for every other hash. -/
def qMix : String → Except Error (Option TxResponse) :=
  fun h => if h = "HASHB" then .ok (some respErrB) else .error errConn

/-- Claim C6 witness: concrete pass over two pending records where the
first record's query transiently fails and the second resolves. -/
theorem c6_transient_error_swallowed_witness :
    update_tx_sync_result hnTotal decOne cidA (qMix recPending2.response.hash)
      recPending2 = .ok (recPending2, .error errConn) ∧
    ∃ b', refresh_all hnTotal decOne cidA qMix
        (recPending2 :: recPendingB :: []) = .ok (recPending2 :: b' :: []) ∧
      b'.status = .ReceivedResponse ∧ b'.response = recPendingB.response :=
  c6_transient_error_swallowed hnTotal decOne cidA qMix recPending2
    recPendingB [] [] errConn 2 1 respErrB rfl rfl rfl rfl
    (by decide) rfl

/-! Equation lemmas for `wait_go`, one per exit/step of the loop. -/

/-- Loop exit: every record resolved. -/
theorem wait_go_eq_allfound (hn : Nat → Nat → Option Height)
    (dec : Height → AbciEvent → List IbcEvent) (chain_id : ChainId)
    (timeout : Nat) (env : Nat → Round) (k elapsed : Nat)
    (records : List TxSyncResult)
    (h : all_tx_results_found records = true) :
    wait_go hn dec chain_id timeout env k elapsed records
      = (.ok, records, elapsed) := by
  rw [wait_go.eq_def]
  simp [h]

/-- Loop exit: time budget exhausted with some record unresolved. -/
theorem wait_go_eq_timeout (hn : Nat → Nat → Option Height)
    (dec : Height → AbciEvent → List IbcEvent) (chain_id : ChainId)
    (timeout : Nat) (env : Nat → Round) (k elapsed : Nat)
    (records : List TxSyncResult)
    (h1 : all_tx_results_found records = false)
    (h2 : timeout < elapsed) :
    wait_go hn dec chain_id timeout env k elapsed records
      = (.timeoutErr, records, elapsed) := by
  rw [wait_go.eq_def]
  simp [h1, h2]

/-- Loop abort: the refresh pass panicked. -/
theorem wait_go_eq_panic (hn : Nat → Nat → Option Height)
    (dec : Height → AbciEvent → List IbcEvent) (chain_id : ChainId)
    (timeout : Nat) (env : Nat → Round) (k elapsed : Nat)
    (records rest : List TxSyncResult) (msg : String)
    (h1 : all_tx_results_found records = false)
    (h2 : ¬ timeout < elapsed)
    (h3 : refresh_all hn dec chain_id (env k).query records
            = .error (msg, rest)) :
    wait_go hn dec chain_id timeout env k elapsed records
      = (.panicked msg, rest, elapsed + WAIT_BACKOFF + (env k).queryTime) := by
  rw [wait_go.eq_def]
  simp [h1, h2, h3]

/-- Loop step: sleep, refresh every record, continue. -/
theorem wait_go_eq_step (hn : Nat → Nat → Option Height)
    (dec : Height → AbciEvent → List IbcEvent) (chain_id : ChainId)
    (timeout : Nat) (env : Nat → Round) (k elapsed : Nat)
    (records rs' : List TxSyncResult)
    (h1 : all_tx_results_found records = false)
    (h2 : ¬ timeout < elapsed)
    (h3 : refresh_all hn dec chain_id (env k).query records = .ok rs') :
    wait_go hn dec chain_id timeout env k elapsed records
      = wait_go hn dec chain_id timeout env (k + 1)
          (elapsed + WAIT_BACKOFF + (env k).queryTime) rs' := by
  conv_lhs => rw [wait_go.eq_def]
  simp [h1, h2, h3]

/-- A run that returns success has every record of its final collection
resolved. -/
theorem wait_go_ok_all_found (hn : Nat → Nat → Option Height)
    (dec : Height → AbciEvent → List IbcEvent) (chain_id : ChainId)
    (timeout : Nat) (env : Nat → Round) :
    ∀ (k elapsed : Nat) (records : List TxSyncResult),
      (wait_go hn dec chain_id timeout env k elapsed records).1 = .ok →
      all_tx_results_found
        (wait_go hn dec chain_id timeout env k elapsed records).2.1 = true := by
  intro k elapsed records
  induction k, elapsed, records using wait_go.induct hn dec chain_id timeout env
    with
  | case1 k elapsed records h =>
    rw [wait_go_eq_allfound hn dec chain_id timeout env k elapsed records h]
    intro _
    exact h
  | case2 k elapsed records h1 h2 =>
    rw [wait_go_eq_timeout hn dec chain_id timeout env k elapsed records
        (by simpa using h1) h2]
    intro hcontra
    simp at hcontra
  | case3 k elapsed records h1 h2 msg rest h3 =>
    rw [wait_go_eq_panic hn dec chain_id timeout env k elapsed records rest msg
        (by simpa using h1) h2 h3]
    intro hcontra
    simp at hcontra
  | case4 k elapsed records h1 h2 rs' h3 ih =>
    rw [wait_go_eq_step hn dec chain_id timeout env k elapsed records rs'
        (by simpa using h1) h2 h3]
    exact ih

/-- Claim C4: the loop returns success exactly when every record is
resolved — the all-resolved check runs before the timeout check, so a
collection that is already fully resolved returns success whatever the
elapsed time, and any successful return has all records resolved. -/
theorem c4_success_iff_all_resolved (hn : Nat → Nat → Option Height)
    (dec : Height → AbciEvent → List IbcEvent) (chain_id : ChainId)
    (timeout : Nat) (env : Nat → Round) (k elapsed : Nat)
    (records : List TxSyncResult) :
    (all_tx_results_found records = true →
      wait_go hn dec chain_id timeout env k elapsed records
        = (.ok, records, elapsed)) ∧
    ((wait_go hn dec chain_id timeout env k elapsed records).1 = .ok →
      all_tx_results_found
        (wait_go hn dec chain_id timeout env k elapsed records).2.1 = true) :=
  ⟨wait_go_eq_allfound hn dec chain_id timeout env k elapsed records,
   wait_go_ok_all_found hn dec chain_id timeout env k elapsed records⟩

/-- Claim C4 witness: a fully resolved collection returns success at once
even though the elapsed time (1000 ms) already exceeds the timeout
(10 ms). -/
theorem c4_success_iff_all_resolved_witness :
    wait_go hnTotal decOne cidA 10 (fun _ => ⟨0, qMix⟩) 0 1000 [recResolved]
      = (.ok, [recResolved], 1000) :=
  (c4_success_iff_all_resolved hnTotal decOne cidA 10 (fun _ => ⟨0, qMix⟩) 0
    1000 [recResolved]).1 rfl

/-- Claim C10: called on an empty record collection, the loop returns
success on the first iteration: no time passes (no backoff sleep) and no
round environment is consulted (no chain query), because the all-resolved
check is vacuously true. -/
theorem c10_empty_records (hn : Nat → Nat → Option Height)
    (dec : Height → AbciEvent → List IbcEvent) (chain_id : ChainId)
    (timeout : Nat) (env : Nat → Round) (elapsed0 : Nat) :
    wait_for_block_commits hn dec chain_id timeout env [] elapsed0
      = (.ok, [], elapsed0) := by
  rw [wait_for_block_commits]
  exact wait_go_eq_allfound hn dec chain_id timeout env 0 elapsed0 [] rfl

/-- Claim C2: if, while refreshing a record, the fully qualified height
cannot be constructed from the chain version and the response's raw block
height, the whole call aborts by panic — an outcome distinct from both
success and the timeout error — instead of continuing the loop. -/
theorem c2_height_failure_aborts (hn : Nat → Nat → Option Height)
    (dec : Height → AbciEvent → List IbcEvent) (chain_id : ChainId)
    (timeout : Nat) (env : Nat → Round) (k elapsed : Nat)
    (r : TxSyncResult) (rs : List TxSyncResult) (mc : Nat) (resp : TxResponse)
    (hst : r.status = .Pending mc)
    (hq : (env k).query r.response.hash = .ok (some resp))
    (hcode : code_is_err resp.tx_result.code = false)
    (hh : hn chain_id.version resp.height = none)
    (hel : ¬ timeout < elapsed) :
    (wait_go hn dec chain_id timeout env k elapsed (r :: rs)).1
      = .panicked unwrapPanicMsg ∧
    (∀ m, WaitOutcome.panicked m ≠ .ok ∧
          WaitOutcome.panicked m ≠ .timeoutErr) := by
  have hnotall : all_tx_results_found (r :: rs) = false := by
    simp [all_tx_results_found, hst]
  have hu : update_tx_sync_result hn dec chain_id
      ((env k).query r.response.hash) r
      = .error (unwrapPanicMsg, { r with status := .ReceivedResponse }) := by
    rw [hq]
    exact update_eq_panic hn dec chain_id resp r mc hst hcode hh
  have hra : refresh_all hn dec chain_id (env k).query (r :: rs)
      = .error (unwrapPanicMsg, { r with status := .ReceivedResponse } :: rs) := by
    simp only [refresh_all, hu]
  rw [wait_go_eq_panic hn dec chain_id timeout env k elapsed (r :: rs)
      ({ r with status := .ReceivedResponse } :: rs) unwrapPanicMsg
      hnotall hel hra]
  exact ⟨rfl, fun m => ⟨by simp, by simp⟩⟩

/-- Claim C2 witness: concrete one-record run in which the height
constructor fails on a success response; the call panics rather than timing
out. -/
theorem c2_height_failure_aborts_witness :
    (wait_go hnNone decOne cidA 1000 (fun _ => ⟨0, fun _ => .ok (some respOk2)⟩)
        0 0 [recPending2]).1 = .panicked unwrapPanicMsg ∧
    (∀ m, WaitOutcome.panicked m ≠ .ok ∧
          WaitOutcome.panicked m ≠ .timeoutErr) :=
  c2_height_failure_aborts hnNone decOne cidA 1000
    (fun _ => ⟨0, fun _ => .ok (some respOk2)⟩) 0 0 recPending2 [] 2 respOk2
    rfl rfl (by decide) rfl (by decide)

/-- The panic channel of a refresh pass also returns every already-resolved
record unchanged at its original position. -/
theorem refresh_all_preserves_resolved_panic (hn : Nat → Nat → Option Height)
    (dec : Height → AbciEvent → List IbcEvent) (chain_id : ChainId)
    (q : String → Except Error (Option TxResponse)) :
    ∀ rs msg rs', refresh_all hn dec chain_id q rs = .error (msg, rs') →
      ∀ (i : Nat) (r : TxSyncResult),
        rs[i]? = some r → r.status = .ReceivedResponse →
        rs'[i]? = some r := by
  intro rs
  induction rs with
  | nil =>
    intro msg rs' h i r hi
    simp [refresh_all] at h
  | cons r0 rs ih =>
    intro msg rs' h i r hi hres
    simp only [refresh_all] at h
    rcases hu : update_tx_sync_result hn dec chain_id (q r0.response.hash) r0
      with ⟨msg0, rp⟩ | ⟨r0', ret⟩
    · rw [hu] at h
      simp at h
      cases i with
      | zero =>
        simp at hi
        rw [← hi] at hres
        rw [update_eq_resolved hn dec chain_id (q r0.response.hash) r0 hres]
          at hu
        simp at hu
      | succ j =>
        simp only [List.getElem?_cons_succ] at hi
        rw [← h.2]
        simp only [List.getElem?_cons_succ]
        exact hi
    · rw [hu] at h
      rcases hrec : refresh_all hn dec chain_id q rs with ⟨msg1, rest⟩ | rs0'
      · rw [hrec] at h
        simp at h
        cases i with
        | zero =>
          simp at hi
          rw [← hi] at hres
          rw [update_eq_resolved hn dec chain_id (q r0.response.hash) r0 hres]
            at hu
          simp at hu
          rw [← h.2]
          simp only [List.getElem?_cons_zero, Option.some.injEq]
          rw [← hu.1]
          exact hi
        | succ j =>
          simp only [List.getElem?_cons_succ] at hi
          rw [← h.2]
          simp only [List.getElem?_cons_succ]
          exact ih msg1 rest hrec j r hi hres
      · rw [hrec] at h
        simp at h

/-- Across any number of loop iterations, a record that is resolved at
entry is returned unchanged (same status, same events) at its original
position. -/
theorem wait_go_preserves_resolved (hn : Nat → Nat → Option Height)
    (dec : Height → AbciEvent → List IbcEvent) (chain_id : ChainId)
    (timeout : Nat) (env : Nat → Round) :
    ∀ (k elapsed : Nat) (records : List TxSyncResult) (i : Nat)
      (r : TxSyncResult),
      records[i]? = some r → r.status = .ReceivedResponse →
      (wait_go hn dec chain_id timeout env k elapsed records).2.1[i]?
        = some r := by
  intro k elapsed records
  induction k, elapsed, records using wait_go.induct hn dec chain_id timeout env
    with
  | case1 k elapsed records h =>
    rw [wait_go_eq_allfound hn dec chain_id timeout env k elapsed records h]
    intro i r hi _
    exact hi
  | case2 k elapsed records h1 h2 =>
    rw [wait_go_eq_timeout hn dec chain_id timeout env k elapsed records
        (by simpa using h1) h2]
    intro i r hi _
    exact hi
  | case3 k elapsed records h1 h2 msg rest h3 =>
    rw [wait_go_eq_panic hn dec chain_id timeout env k elapsed records rest msg
        (by simpa using h1) h2 h3]
    intro i r hi hres
    exact refresh_all_preserves_resolved_panic hn dec chain_id (env k).query
      records msg rest h3 i r hi hres
  | case4 k elapsed records h1 h2 rs' h3 ih =>
    rw [wait_go_eq_step hn dec chain_id timeout env k elapsed records rs'
        (by simpa using h1) h2 h3]
    intro i r hi hres
    exact ih i r
      (refresh_all_preserves_resolved hn dec chain_id (env k).query records
        rs' h3 i r hi hres) hres

/-- A run that returns the timeout error does so with the clock beyond the
budget and some record still pending in the final collection. -/
theorem wait_go_timeout_char (hn : Nat → Nat → Option Height)
    (dec : Height → AbciEvent → List IbcEvent) (chain_id : ChainId)
    (timeout : Nat) (env : Nat → Round) :
    ∀ (k elapsed : Nat) (records : List TxSyncResult)
      (final : List TxSyncResult) (efinal : Nat),
      wait_go hn dec chain_id timeout env k elapsed records
        = (.timeoutErr, final, efinal) →
      timeout < efinal ∧ all_tx_results_found final = false := by
  intro k elapsed records
  induction k, elapsed, records using wait_go.induct hn dec chain_id timeout env
    with
  | case1 k elapsed records h =>
    rw [wait_go_eq_allfound hn dec chain_id timeout env k elapsed records h]
    intro final efinal hcontra
    simp at hcontra
  | case2 k elapsed records h1 h2 =>
    rw [wait_go_eq_timeout hn dec chain_id timeout env k elapsed records
        (by simpa using h1) h2]
    intro final efinal heq
    simp at heq
    refine ⟨?_, ?_⟩
    · rw [← heq.2]
      exact h2
    · rw [← heq.1]
      simpa using h1
  | case3 k elapsed records h1 h2 msg rest h3 =>
    rw [wait_go_eq_panic hn dec chain_id timeout env k elapsed records rest msg
        (by simpa using h1) h2 h3]
    intro final efinal hcontra
    simp at hcontra
  | case4 k elapsed records h1 h2 rs' h3 ih =>
    rw [wait_go_eq_step hn dec chain_id timeout env k elapsed records rs'
        (by simpa using h1) h2 h3]
    exact ih

/-- Claim C5: the loop's only error return is the timeout error, taken when
the budget is exhausted while a record is still pending; the final
collection is the mutated one, every record resolved before the timeout
still resolved with its events (no rollback). -/
theorem c5_timeout_only_failure (hn : Nat → Nat → Option Height)
    (dec : Height → AbciEvent → List IbcEvent) (chain_id : ChainId)
    (timeout : Nat) (env : Nat → Round) (k elapsed : Nat)
    (records : List TxSyncResult) :
    (all_tx_results_found records = false → timeout < elapsed →
      wait_go hn dec chain_id timeout env k elapsed records
        = (.timeoutErr, records, elapsed)) ∧
    (∀ (final : List TxSyncResult) (efinal : Nat),
      wait_go hn dec chain_id timeout env k elapsed records
        = (.timeoutErr, final, efinal) →
      timeout < efinal ∧
      (∃ r ∈ final, ∃ mc, r.status = .Pending mc) ∧
      (∀ (i : Nat) (r : TxSyncResult), records[i]? = some r →
        r.status = .ReceivedResponse → final[i]? = some r)) := by
  constructor
  · exact wait_go_eq_timeout hn dec chain_id timeout env k elapsed records
  · intro final efinal h
    obtain ⟨ht, hnf⟩ := wait_go_timeout_char hn dec chain_id timeout env
      k elapsed records final efinal h
    refine ⟨ht, (not_all_found_iff final).mp hnf, ?_⟩
    intro i r hi hres
    have hfin : (wait_go hn dec chain_id timeout env k elapsed records).2.1
        = final := by
      rw [h]
    rw [← hfin]
    exact wait_go_preserves_resolved hn dec chain_id timeout env k elapsed
      records i r hi hres

/-- Query that always answers "not yet found". -/
def qNotFound : String → Except Error (Option TxResponse) :=
  fun _ => .ok none

/-- Round environment with instantaneous queries all answering "not yet
found". -/
def envNotFound : Nat → Round := fun _ => ⟨0, qNotFound⟩

/-- Claim C5 witness: concrete run (timeout 100 ms) over a resolved record
and a never-confirmed pending record; the call times out at 300 ms with the
resolved record intact and the other still pending. -/
theorem c5_timeout_only_failure_witness :
    100 < 300 ∧
    (∃ r ∈ [recResolved, recPendingB], ∃ mc, r.status = .Pending mc) ∧
    (∀ (i : Nat) (r : TxSyncResult),
      [recResolved, recPendingB][i]? = some r →
      r.status = .ReceivedResponse →
      [recResolved, recPendingB][i]? = some r) :=
  (c5_timeout_only_failure hnTotal decOne cidA 100 envNotFound 0 0
      [recResolved, recPendingB]).2 [recResolved, recPendingB] 300
    ((wait_go_eq_step hnTotal decOne cidA 100 envNotFound 0 0
        [recResolved, recPendingB] [recResolved, recPendingB] rfl
        (by decide) rfl).trans
      (wait_go_eq_timeout hnTotal decOne cidA 100 envNotFound 1 300
        [recResolved, recPendingB] rfl (by decide)))

/-- Across any number of loop iterations the record list keeps its length
and order and every record its broadcast response, whatever the exit. -/
theorem wait_go_preserves_response (hn : Nat → Nat → Option Height)
    (dec : Height → AbciEvent → List IbcEvent) (chain_id : ChainId)
    (timeout : Nat) (env : Nat → Round) :
    ∀ (k elapsed : Nat) (records : List TxSyncResult),
      ((wait_go hn dec chain_id timeout env k elapsed records).2.1).map
          TxSyncResult.response
        = records.map TxSyncResult.response := by
  intro k elapsed records
  induction k, elapsed, records using wait_go.induct hn dec chain_id timeout env
    with
  | case1 k elapsed records h =>
    rw [wait_go_eq_allfound hn dec chain_id timeout env k elapsed records h]
  | case2 k elapsed records h1 h2 =>
    rw [wait_go_eq_timeout hn dec chain_id timeout env k elapsed records
        (by simpa using h1) h2]
  | case3 k elapsed records h1 h2 msg rest h3 =>
    rw [wait_go_eq_panic hn dec chain_id timeout env k elapsed records rest msg
        (by simpa using h1) h2 h3]
    exact (refresh_all_preserves_response hn dec chain_id (env k).query
      records).2 msg rest h3
  | case4 k elapsed records h1 h2 rs' h3 ih =>
    rw [wait_go_eq_step hn dec chain_id timeout env k elapsed records rs'
        (by simpa using h1) h2 h3]
    rw [ih]
    exact (refresh_all_preserves_response hn dec chain_id (env k).query
      records).1 rs' h3

/-- Claim C9: throughout any call the record collection keeps its length
and order, and each record's broadcast response — hence the transaction
hash — is never modified; only status and events are written. -/
theorem c9_frame_hash_order (hn : Nat → Nat → Option Height)
    (dec : Height → AbciEvent → List IbcEvent) (chain_id : ChainId)
    (timeout : Nat) (env : Nat → Round) (k elapsed : Nat)
    (records : List TxSyncResult) :
    ((wait_go hn dec chain_id timeout env k elapsed records).2.1).length
      = records.length ∧
    ((wait_go hn dec chain_id timeout env k elapsed records).2.1).map
        TxSyncResult.response
      = records.map TxSyncResult.response := by
  have hmap := wait_go_preserves_response hn dec chain_id timeout env
    k elapsed records
  refine ⟨?_, hmap⟩
  have := congrArg List.length hmap
  simpa using this

/-- A refresh of one record cannot panic when the height constructor is
total. -/
theorem update_no_panic (hn : Nat → Nat → Option Height)
    (dec : Height → AbciEvent → List IbcEvent) (chain_id : ChainId)
    (q : Except Error (Option TxResponse)) (r : TxSyncResult)
    (hhn : ∀ v h, (hn v h).isSome) :
    ∃ out, update_tx_sync_result hn dec chain_id q r = .ok out := by
  rcases hst : r.status with k | _
  · rcases q with e | resp
    · exact ⟨_, update_eq_transient hn dec chain_id e r k hst⟩
    · rcases resp with _ | resp
      · exact ⟨_, update_eq_notfound hn dec chain_id r k hst⟩
      · rcases hc : code_is_err resp.tx_result.code with _ | _
        · rcases hh : hn chain_id.version resp.height with _ | ht
          · have hs := hhn chain_id.version resp.height
            rw [hh] at hs
            simp at hs
          · exact ⟨_, update_eq_success hn dec chain_id resp r k ht hst hc hh⟩
        · exact ⟨_, update_eq_errcode hn dec chain_id resp r k hst hc⟩
  · exact ⟨_, update_eq_resolved hn dec chain_id q r hst⟩

/-- A refresh pass cannot panic when the height constructor is total. -/
theorem refresh_all_no_panic (hn : Nat → Nat → Option Height)
    (dec : Height → AbciEvent → List IbcEvent) (chain_id : ChainId)
    (q : String → Except Error (Option TxResponse))
    (hhn : ∀ v h, (hn v h).isSome) :
    ∀ rs, ∃ rs', refresh_all hn dec chain_id q rs = .ok rs' := by
  intro rs
  induction rs with
  | nil => exact ⟨[], rfl⟩
  | cons r0 rs ih =>
    obtain ⟨⟨r0', ret⟩, hu⟩ :=
      update_no_panic hn dec chain_id (q r0.response.hash) r0 hhn
    obtain ⟨rs0', hr⟩ := ih
    exact ⟨r0' :: rs0', by simp only [refresh_all, hu, hr]⟩

/-- With a total height constructor the loop exits with success or the
timeout error, never a panic. -/
theorem wait_go_no_panic (hn : Nat → Nat → Option Height)
    (dec : Height → AbciEvent → List IbcEvent) (chain_id : ChainId)
    (timeout : Nat) (env : Nat → Round)
    (hhn : ∀ v h, (hn v h).isSome) :
    ∀ (k elapsed : Nat) (records : List TxSyncResult),
      (wait_go hn dec chain_id timeout env k elapsed records).1 = .ok ∨
      (wait_go hn dec chain_id timeout env k elapsed records).1
        = .timeoutErr := by
  intro k elapsed records
  induction k, elapsed, records using wait_go.induct hn dec chain_id timeout env
    with
  | case1 k elapsed records h =>
    rw [wait_go_eq_allfound hn dec chain_id timeout env k elapsed records h]
    left
    rfl
  | case2 k elapsed records h1 h2 =>
    rw [wait_go_eq_timeout hn dec chain_id timeout env k elapsed records
        (by simpa using h1) h2]
    right
    rfl
  | case3 k elapsed records h1 h2 msg rest h3 =>
    obtain ⟨rs', hok⟩ :=
      refresh_all_no_panic hn dec chain_id (env k).query hhn records
    rw [h3] at hok
    simp at hok
  | case4 k elapsed records h1 h2 rs' h3 ih =>
    rw [wait_go_eq_step hn dec chain_id timeout env k elapsed records rs'
        (by simpa using h1) h2 h3]
    exact ih

/-- The wall clock at loop exit never exceeds the larger of the entry clock
and the budget plus one backoff plus one query round. -/
theorem wait_go_elapsed_bound (hn : Nat → Nat → Option Height)
    (dec : Height → AbciEvent → List IbcEvent) (chain_id : ChainId)
    (timeout : Nat) (env : Nat → Round) (Q : Nat)
    (hQ : ∀ i, (env i).queryTime ≤ Q) :
    ∀ (k elapsed : Nat) (records : List TxSyncResult),
      (wait_go hn dec chain_id timeout env k elapsed records).2.2
        ≤ max elapsed (timeout + WAIT_BACKOFF + Q) := by
  intro k elapsed records
  induction k, elapsed, records using wait_go.induct hn dec chain_id timeout env
    with
  | case1 k elapsed records h =>
    rw [wait_go_eq_allfound hn dec chain_id timeout env k elapsed records h]
    exact le_max_left _ _
  | case2 k elapsed records h1 h2 =>
    rw [wait_go_eq_timeout hn dec chain_id timeout env k elapsed records
        (by simpa using h1) h2]
    exact le_max_left _ _
  | case3 k elapsed records h1 h2 msg rest h3 =>
    rw [wait_go_eq_panic hn dec chain_id timeout env k elapsed records rest msg
        (by simpa using h1) h2 h3]
    have hq := hQ k
    have h2' := Nat.not_lt.mp h2
    exact le_trans
      (Nat.add_le_add (Nat.add_le_add h2' le_rfl) hq) (le_max_right _ _)
  | case4 k elapsed records h1 h2 rs' h3 ih =>
    rw [wait_go_eq_step hn dec chain_id timeout env k elapsed records rs'
        (by simpa using h1) h2 h3]
    have hq := hQ k
    have h2' := Nat.not_lt.mp h2
    have hle : elapsed + WAIT_BACKOFF + (env k).queryTime
        ≤ timeout + WAIT_BACKOFF + Q :=
      Nat.add_le_add (Nat.add_le_add h2' le_rfl) hq
    calc (wait_go hn dec chain_id timeout env (k + 1)
            (elapsed + WAIT_BACKOFF + (env k).queryTime) rs').2.2
        ≤ max (elapsed + WAIT_BACKOFF + (env k).queryTime)
            (timeout + WAIT_BACKOFF + Q) := ih
      _ = timeout + WAIT_BACKOFF + Q := Nat.max_eq_right hle
      _ ≤ max elapsed (timeout + WAIT_BACKOFF + Q) := le_max_right _ _

/-- Claim C8: for a non-empty record collection, when each query round
takes at most `Q` ms and the height constructor is total, the loop
terminates (it is a total function) by full resolution or by timeout, with
a final wall clock of at most the timeout budget plus one 300 ms backoff
plus one query round. -/
theorem c8_bounded_termination (hn : Nat → Nat → Option Height)
    (dec : Height → AbciEvent → List IbcEvent) (chain_id : ChainId)
    (timeout : Nat) (env : Nat → Round) (Q : Nat)
    (records : List TxSyncResult) (elapsed0 : Nat)
    (_hne : records ≠ [])
    (hQ : ∀ i, (env i).queryTime ≤ Q)
    (hhn : ∀ v h, (hn v h).isSome)
    (he0 : elapsed0 ≤ timeout) :
    ((wait_for_block_commits hn dec chain_id timeout env records
        elapsed0).1 = .ok ∨
     (wait_for_block_commits hn dec chain_id timeout env records
        elapsed0).1 = .timeoutErr) ∧
    (wait_for_block_commits hn dec chain_id timeout env records
        elapsed0).2.2 ≤ timeout + WAIT_BACKOFF + Q := by
  rw [wait_for_block_commits]
  refine ⟨wait_go_no_panic hn dec chain_id timeout env hhn 0 elapsed0
    records, ?_⟩
  have hb := wait_go_elapsed_bound hn dec chain_id timeout env Q hQ
    0 elapsed0 records
  have : max elapsed0 (timeout + WAIT_BACKOFF + Q)
      = timeout + WAIT_BACKOFF + Q :=
    Nat.max_eq_right (le_trans he0 (by omega))
  rw [this] at hb
  exact hb

/-- Claim C8 witness: concrete one-record run that never confirms; the
outcome is the timeout error and the exit clock respects the bound. -/
theorem c8_bounded_termination_witness :
    ((wait_for_block_commits hnTotal decOne cidA 1000 envNotFound
        [recPendingB] 0).1 = .ok ∨
     (wait_for_block_commits hnTotal decOne cidA 1000 envNotFound
        [recPendingB] 0).1 = .timeoutErr) ∧
    (wait_for_block_commits hnTotal decOne cidA 1000 envNotFound
        [recPendingB] 0).2.2 ≤ 1000 + WAIT_BACKOFF + 0 :=
  c8_bounded_termination hnTotal decOne cidA 1000 envNotFound 0
    [recPendingB] 0 (by simp) (fun i => le_refl 0) (fun v h => rfl)
    (by decide)

end CosmosWait
